import Mathlib

/-!
Verification of the AgenticCP-Agent task-lifecycle, routing, history,
resource-action and pagination logic against its specification.

The definitions below are a shallow embedding of the Python sources:
  * `src/src/models/task.py` and `src/src/models/agent.py` (data model),
  * `src/src/services/task_service.py` (task lifecycle operations),
  * `src/src/agents/supervisor_agent.py` (request analysis, history cap),
  * `src/src/agents/ec2_agent.py` and `src/src/agents/s3_agent.py`
    (resource-action parameter validation),
  * `src/src/schemas/common.py` (pagination).

Conventions of the embedding:
  * Database access is made explicit: an operation receives the fetched
    `Task` record and, where relevant, the list of stored `Agent` rows in
    persistence order; `datetime.utcnow()` becomes an explicit `now : Nat`
    argument.
  * Python `raise ValueError(msg)` becomes `Except.error msg`; the message
    strings are the ones in the source.
  * The cloud SDK is external to the repository, so a resource action
    records the call it dispatches (if any) instead of performing it.
-/

namespace AgenticCP

/-- Task status enum from `src/src/models/task.py` (`TaskStatus`). -/
inductive TaskStatus where
  | pending
  | running
  | completed
  | failed
  | cancelled
  | timeout
deriving DecidableEq, Repr

/-- Agent status enum from `src/src/models/agent.py` (`AgentStatus`). -/
inductive AgentStatus where
  | active
  | inactive
  | maintenance
  | error
deriving DecidableEq, Repr

/-- Task record, the fields of `Task` in `src/src/models/task.py` that the
lifecycle operations read or write.  Timestamps are abstract instants
(`Nat`); JSON payloads are opaque strings. -/
structure Task where
  task_id : String
  name : String
  description : Option String
  status : TaskStatus
  priority : Nat
  input_data : Option String
  output_data : Option String
  error_message : Option String
  started_at : Option Nat
  completed_at : Option Nat
  progress : Nat
  agent_id : Option Nat
deriving DecidableEq, Repr

/-- Embeds `Task.is_completed` from `src/src/models/task.py`: status is one of
COMPLETED, FAILED, CANCELLED, TIMEOUT. -/
def Task.is_completed (t : Task) : Bool :=
  decide (t.status = .completed) || decide (t.status = .failed) ||
    decide (t.status = .cancelled) || decide (t.status = .timeout)

/-- Embeds `Task.can_be_cancelled` from `src/src/models/task.py`: status is
PENDING or RUNNING. -/
def Task.can_be_cancelled (t : Task) : Bool :=
  decide (t.status = .pending) || decide (t.status = .running)

/-- Embeds `Task.can_be_retried` from `src/src/models/task.py`: status is
FAILED or TIMEOUT. -/
def Task.can_be_retried (t : Task) : Bool :=
  decide (t.status = .failed) || decide (t.status = .timeout)

/-- Agent record, the fields of `Agent` in `src/src/models/agent.py` used
by assignment; `id` is the (unique) primary key from the base model. -/
structure Agent where
  id : Nat
  agent_id : String
  name : String
  status : AgentStatus
  is_enabled : Bool
  max_concurrent_tasks : Nat
deriving DecidableEq, Repr

/-- Embeds `Agent.is_active` from `src/src/models/agent.py`: status ACTIVE and
enabled. -/
def Agent.is_active (a : Agent) : Bool :=
  decide (a.status = .active) && a.is_enabled

/-- Embeds `Agent.is_available` from `src/src/models/agent.py`: active and not in
maintenance. -/
def Agent.is_available (a : Agent) : Bool :=
  a.is_active && !(decide (a.status = .maintenance))

/-- Embeds `Agent.can_accept_task` from `src/src/models/agent.py`: the source
checks `is_available` and then returns True unconditionally (the
concurrency-limit check is commented out). -/
def Agent.can_accept_task (a : Agent) : Bool :=
  if !a.is_available then false else true

/-- Embeds the `TaskStatusUpdate` request schema from `src/src/schemas/task.py`. -/
structure TaskStatusUpdate where
  status : TaskStatus
  progress : Option Nat
  output_data : Option String
  error_message : Option String
deriving DecidableEq, Repr

/-- Embeds the `TaskCreate` request schema from `src/src/schemas/task.py`. -/
structure TaskCreate where
  task_id : String
  name : String
  description : Option String
  priority : Nat
  input_data : Option String
  agent_id : Option Nat
deriving DecidableEq, Repr

/-- The task row stored in the database after an operation: the new value
on success, the original row when the operation raised (the source raises
before any mutation). -/
def storedAfter (t : Task) (r : Except String Task) : Task :=
  match r with
  | .ok t2 => t2
  | .error _ => t

/-- Embeds `TaskService.update_task_status` from `src/src/services/task_service.py`
(lines 105-131): unconditional overwrite of status, optional overwrite of
progress, output_data, error_message, and `completed_at := now` exactly
when the new status is COMPLETED, FAILED or CANCELLED. -/
def update_task_status (now : Nat) (t : Task) (u : TaskStatusUpdate) : Task :=
  let t1 := { t with status := u.status }
  let t2 := match u.progress with
    | some p => { t1 with progress := p }
    | none => t1
  let t3 := match u.output_data with
    | some o => { t2 with output_data := some o }
    | none => t2
  let t4 := match u.error_message with
    | some e => { t3 with error_message := some e }
    | none => t3
  if u.status = .completed ∨ u.status = .failed ∨ u.status = .cancelled then
    { t4 with completed_at := some now }
  else t4

/-- Embeds `TaskService.cancel_task` from `src/src/services/task_service.py`
(lines 133-148). -/
def cancel_task (now : Nat) (t : Task) : Except String Task :=
  if !t.can_be_cancelled then
    .error "취소할 수 없는 작업입니다"
  else
    .ok { t with status := .cancelled, completed_at := some now }

/-- Embeds `TaskService.retry_task` from `src/src/services/task_service.py`
(lines 150-169). -/
def retry_task (t : Task) : Except String Task :=
  if !t.can_be_retried then
    .error "재시도할 수 없는 작업입니다"
  else
    .ok { t with status := .pending, progress := 0, started_at := none,
                 completed_at := none, error_message := none }

/-- Embeds `TaskService.assign_task_to_agent` from
`src/src/services/task_service.py` (lines 55-79): look the agent up by
primary key, reject if missing or unable to accept a task, otherwise set
the agent reference, status RUNNING and the start time. -/
def assign_task_to_agent (now : Nat) (agents : List Agent) (t : Task)
    (agentId : Nat) : Except String Task :=
  match agents.find? (fun a => decide (a.id = agentId)) with
  | none => .error ("에이전트 ID " ++ toString agentId ++ "를 찾을 수 없습니다")
  | some agent =>
    if !agent.can_accept_task then
      .error ("에이전트 " ++ agent.name ++ "이 현재 작업을 수락할 수 없습니다")
    else
      .ok { t with agent_id := some agentId, status := .running,
                   started_at := some now }

/-- Embeds `TaskService.auto_assign_task` from `src/src/services/task_service.py`
(lines 81-103): filter the stored agents (persistence order) to the
ACTIVE-and-enabled ones, take the first that can accept a task, and assign
through `assign_task_to_agent`; raise when none qualifies. -/
def auto_assign_task (now : Nat) (agents : List Agent) (t : Task) :
    Except String Task :=
  let available := agents.filter (fun a => decide (a.status = .active) && a.is_enabled)
  match available.find? (fun a => a.can_accept_task) with
  | some agent => assign_task_to_agent now agents t agent.id
  | none => .error "사용 가능한 에이전트가 없습니다"

/-- Embeds `TaskService.create_task` from `src/src/services/task_service.py`
(lines 208-226), after the duplicate-id check: the row is created with the
model defaults (status PENDING, progress 0, no timestamps), and when the
request names an agent an assignment is attempted with failures swallowed
(the task then stays PENDING). -/
def create_task (now : Nat) (agents : List Agent) (c : TaskCreate) : Task :=
  let t : Task :=
    { task_id := c.task_id, name := c.name, description := c.description,
      status := .pending, priority := c.priority, input_data := c.input_data,
      output_data := none, error_message := none, started_at := none,
      completed_at := none, progress := 0, agent_id := none }
  match c.agent_id with
  | some aid => storedAfter t (assign_task_to_agent now agents t aid)
  | none => t

/-- The specified `completed_at` invariant: the completion timestamp is
present exactly when the status is one of the four finished statuses
(`Task.is_completed`). -/
def completedAtInv (t : Task) : Prop :=
  t.completed_at.isSome = t.is_completed

/-- A concrete task in status PENDING with no completion timestamp. -/
def exPendingTask : Task :=
  { task_id := "task-1", name := "demo", description := none,
    status := .pending, priority := 5, input_data := none,
    output_data := none, error_message := none, started_at := none,
    completed_at := none, progress := 0, agent_id := none }

/-- A concrete task in status FAILED with a completion timestamp. -/
def exFailedTask : Task :=
  { task_id := "task-2", name := "demo", description := none,
    status := .failed, priority := 5, input_data := none,
    output_data := none, error_message := some "boom", started_at := some 1,
    completed_at := some 2, progress := 40, agent_id := none }

/-- A concrete task in status COMPLETED with a completion timestamp. -/
def exCompletedTask : Task :=
  { task_id := "task-3", name := "demo", description := none,
    status := .completed, priority := 5, input_data := none,
    output_data := some "out", error_message := none, started_at := some 1,
    completed_at := some 2, progress := 100, agent_id := some 7 }

instance (t : Task) : Decidable (completedAtInv t) := by
  unfold completedAtInv
  infer_instance

/-- C1 counterexample: updating a PENDING task to TIMEOUT leaves
`completed_at` unset although TIMEOUT is a finished status, so the claimed
invariant fails after a single `update_status` operation
(`update_task_status` only sets the timestamp for COMPLETED, FAILED,
CANCELLED). -/
theorem c1_completed_at_counterexample :
    ¬ completedAtInv
        (update_task_status 0 exPendingTask
          { status := .timeout, progress := none, output_data := none,
            error_message := none }) := by
  decide

/-- C1 (amended): create establishes the `completed_at` invariant; cancel
and retry re-establish it on success; a successful assignment preserves it
when the task had no completion timestamp; `update_task_status` sets
`completed_at` exactly when the new status is COMPLETED, FAILED or
CANCELLED — in particular an update to TIMEOUT does not set it, and an
update to a non-finished status does not clear it. -/
theorem c1_completed_at_amended (now : Nat) (agents : List Agent)
    (c : TaskCreate) (t : Task) (u : TaskStatusUpdate) :
    completedAtInv (create_task now agents c)
    ∧ (∀ t2, cancel_task now t = .ok t2 → completedAtInv t2)
    ∧ (∀ t2, retry_task t = .ok t2 → completedAtInv t2)
    ∧ (t.completed_at = none → ∀ aid t2,
        assign_task_to_agent now agents t aid = .ok t2 → completedAtInv t2)
    ∧ ((u.status = .completed ∨ u.status = .failed ∨ u.status = .cancelled) →
        completedAtInv (update_task_status now t u))
    ∧ (update_task_status now t u).completed_at =
        (if u.status = .completed ∨ u.status = .failed ∨ u.status = .cancelled
         then some now else t.completed_at) := by
  refine ⟨?_, ?_, ?_, ?_, ?_, ?_⟩
  · unfold create_task
    cases c.agent_id with
    | none => simp [completedAtInv, Task.is_completed]
    | some aid =>
      unfold assign_task_to_agent storedAfter
      cases hf : (agents.find? (fun a => decide (a.id = aid))) with
      | none => simp [hf, completedAtInv, Task.is_completed]
      | some a =>
        by_cases hc : a.can_accept_task <;>
          simp [hf, hc, completedAtInv, Task.is_completed]
  · intro t2 h
    unfold cancel_task at h
    by_cases hc : t.can_be_cancelled
    · simp [hc] at h
      subst h
      simp [completedAtInv, Task.is_completed]
    · simp [hc] at h
  · intro t2 h
    unfold retry_task at h
    by_cases hc : t.can_be_retried
    · simp [hc] at h
      subst h
      simp [completedAtInv, Task.is_completed]
    · simp [hc] at h
  · intro hnone aid t2 h
    unfold assign_task_to_agent at h
    cases hf : (agents.find? (fun a => decide (a.id = aid))) with
    | none => rw [hf] at h; simp at h
    | some a =>
      rw [hf] at h
      by_cases hc : a.can_accept_task
      · simp [hc] at h
        subst h
        simp [completedAtInv, Task.is_completed, hnone]
      · simp [hc] at h
  · intro hs
    unfold update_task_status
    simp only [hs, if_true]
    rcases hs with h | h | h <;>
      cases hu1 : u.progress <;> cases hu2 : u.output_data <;>
        cases hu3 : u.error_message <;>
          simp [completedAtInv, Task.is_completed, h]
  · unfold update_task_status
    by_cases hs : u.status = .completed ∨ u.status = .failed ∨ u.status = .cancelled <;>
      cases hu1 : u.progress <;> cases hu2 : u.output_data <;>
        cases hu3 : u.error_message <;> simp [hs]

/-- A concrete creation request naming no agent. -/
def exCreateReq : TaskCreate :=
  { task_id := "task-9", name := "demo", description := none,
    priority := 5, input_data := none, agent_id := none }

/-- A concrete status-update request targeting COMPLETED. -/
def exCompleteUpdate : TaskStatusUpdate :=
  { status := .completed, progress := some 100, output_data := none,
    error_message := none }

/-- Witness for C1 (amended) at concrete inputs: a creation request with
no agent, a cancel of a pending task, a retry of a failed task, and an
update of a pending task to COMPLETED. -/
theorem c1_completed_at_amended_witness :
    completedAtInv (create_task 0 [] exCreateReq)
    ∧ completedAtInv (storedAfter exPendingTask (cancel_task 3 exPendingTask))
    ∧ completedAtInv (storedAfter exFailedTask (retry_task exFailedTask))
    ∧ completedAtInv (update_task_status 3 exPendingTask exCompleteUpdate) := by
  have h1 := c1_completed_at_amended 0 [] exCreateReq exPendingTask exCompleteUpdate
  have h2 := c1_completed_at_amended 3 [] exCreateReq exPendingTask exCompleteUpdate
  have h3 := c1_completed_at_amended 3 [] exCreateReq exFailedTask exCompleteUpdate
  refine ⟨h1.1, ?_, ?_, ?_⟩
  · exact h2.2.1 _ (by rfl)
  · exact h3.2.2.1 _ (by rfl)
  · exact h2.2.2.2.2.1 (Or.inl rfl)

/-- C2: for every existing task and every status-update request (any
target status, including illegal transitions such as COMPLETED back to
RUNNING), `update_task_status` returns a task whose status is exactly the
requested one, with progress, output_data and error_message overwritten
exactly when supplied — no transition-legality check exists. -/
theorem c2_update_status_unconditional (now : Nat) (t : Task)
    (u : TaskStatusUpdate) :
    (update_task_status now t u).status = u.status
    ∧ (update_task_status now t u).progress = u.progress.getD t.progress
    ∧ (update_task_status now t u).output_data =
        (match u.output_data with
         | some o => some o
         | none => t.output_data)
    ∧ (update_task_status now t u).error_message =
        (match u.error_message with
         | some e => some e
         | none => t.error_message) := by
  unfold update_task_status
  by_cases hs : u.status = .completed ∨ u.status = .failed ∨ u.status = .cancelled <;>
    cases hu1 : u.progress <;> cases hu2 : u.output_data <;>
      cases hu3 : u.error_message <;> simp [hs]

/-- C3: retry succeeds exactly when the current status is FAILED or
TIMEOUT; on success the stored task is reset to PENDING with progress 0
and cleared start/completion timestamps and error message; on failure the
stored task is unchanged. -/
theorem c3_retry_iff_failed_or_timeout (t : Task) :
    ((∃ t2, retry_task t = .ok t2) ↔ (t.status = .failed ∨ t.status = .timeout))
    ∧ storedAfter t (retry_task t) =
        (if t.status = .failed ∨ t.status = .timeout then
          { t with status := .pending, progress := 0, started_at := none,
                   completed_at := none, error_message := none }
         else t) := by
  unfold retry_task storedAfter Task.can_be_retried
  by_cases hs : t.status = .failed ∨ t.status = .timeout
  · rcases hs with h | h <;> simp [h]
  · push_neg at hs
    simp [hs.1, hs.2]

/-- C4: cancel succeeds exactly when the current status is PENDING or
RUNNING; on success the stored task has status CANCELLED and
`completed_at` set to the current time; on failure (for example a
COMPLETED task) the stored task is unchanged. -/
theorem c4_cancel_iff_pending_or_running (now : Nat) (t : Task) :
    ((∃ t2, cancel_task now t = .ok t2) ↔ (t.status = .pending ∨ t.status = .running))
    ∧ storedAfter t (cancel_task now t) =
        (if t.status = .pending ∨ t.status = .running then
          { t with status := .cancelled, completed_at := some now }
         else t) := by
  unfold cancel_task storedAfter Task.can_be_cancelled
  by_cases hs : t.status = .pending ∨ t.status = .running
  · rcases hs with h | h <;> simp [h]
  · push_neg at hs
    simp [hs.1, hs.2]

/-- Lemma: `Agent.can_accept_task` computes exactly "status ACTIVE and enabled":
the maintenance exclusion inside `is_available` is redundant because an
ACTIVE agent is never in MAINTENANCE. -/
lemma can_accept_task_eq (a : Agent) :
    a.can_accept_task = (decide (a.status = .active) && a.is_enabled) := by
  unfold Agent.can_accept_task Agent.is_available Agent.is_active
  by_cases h : a.status = .active
  · have hm : ¬ (a.status = .maintenance) := by
      rw [h]
      intro hc
      cases hc
    cases he : a.is_enabled <;> simp [h, hm, he]
  · cases he : a.is_enabled <;> simp [h, he]

/-- If a predicate holds on every element of a list, `find?` returns the
head of the list. -/
lemma find_first_of_all {α : Type} (p : α → Bool) :
    ∀ (l : List α), (∀ a ∈ l, p a = true) → l.find? p = l.head? := by
  intro l h
  cases l with
  | nil => rfl
  | cons a l =>
    rw [List.find?_cons_of_pos _ (h a (List.mem_cons_self a l))]
    rfl

/-- Looking an element up by its `id` field in a list with pairwise
distinct ids returns that element. -/
lemma find_by_id_of_nodup :
    ∀ (l : List Agent) (a : Agent),
      (l.map (fun x => x.id)).Nodup → a ∈ l →
      l.find? (fun b => decide (b.id = a.id)) = some a := by
  intro l
  induction l with
  | nil =>
    intro a _ ha
    cases ha
  | cons x xs ih =>
    intro a hnd ha
    have hnd2 : x.id ∉ xs.map (fun x => x.id) ∧ (xs.map (fun x => x.id)).Nodup := by
      rw [List.map_cons, List.nodup_cons] at hnd
      exact hnd
    rcases List.mem_cons.mp ha with rfl | hmem
    · rw [List.find?_cons_of_pos _ (by simp)]
    · have hx : ¬ (x.id = a.id) := by
        intro he
        exact hnd2.1 (he ▸ List.mem_map_of_mem (fun x => x.id) hmem)
      rw [List.find?_cons_of_neg _ (by simp [hx])]
      exact ih a hnd2.2 hmem

/-- C5: assignment of a task to a named agent: when the agent id is
missing from the stored agents the call fails with the not-found error and
the stored task is unchanged; when the agent is found but is not available
(not ACTIVE, or not enabled) the call fails and the stored task is
entirely unchanged; when the found agent is ACTIVE and enabled the call
succeeds and the stored task gets status RUNNING, the current time as
`started_at`, and the agent reference. -/
theorem c5_assign_agent_checks (now : Nat) (agents : List Agent) (t : Task)
    (aid : Nat) :
    (agents.find? (fun a => decide (a.id = aid)) = none →
      assign_task_to_agent now agents t aid =
        .error ("에이전트 ID " ++ toString aid ++ "를 찾을 수 없습니다")
      ∧ storedAfter t (assign_task_to_agent now agents t aid) = t)
    ∧ (∀ a, agents.find? (fun a => decide (a.id = aid)) = some a →
        ¬ (a.status = .active ∧ a.is_enabled = true) →
        (∃ e, assign_task_to_agent now agents t aid = .error e)
        ∧ storedAfter t (assign_task_to_agent now agents t aid) = t)
    ∧ (∀ a, agents.find? (fun a => decide (a.id = aid)) = some a →
        a.status = .active → a.is_enabled = true →
        assign_task_to_agent now agents t aid =
          .ok { t with agent_id := some aid, status := .running,
                       started_at := some now }) := by
  refine ⟨?_, ?_, ?_⟩
  · intro hf
    unfold assign_task_to_agent
    rw [hf]
    exact ⟨rfl, rfl⟩
  · intro a hf hna
    have hcna : a.can_accept_task = false := by
      rw [can_accept_task_eq]
      by_cases h1 : a.status = .active
      · cases h2 : a.is_enabled
        · simp
        · exact absurd ⟨h1, h2⟩ hna
      · simp [h1]
    unfold assign_task_to_agent
    rw [hf]
    simp [hcna, storedAfter]
  · intro a hf h1 h2
    have hca : a.can_accept_task = true := by
      rw [can_accept_task_eq, h1, h2]
      simp
    unfold assign_task_to_agent
    rw [hf]
    simp [hca]

/-- A stored agent that is ACTIVE but disabled (id 1). -/
def exDisabledAgent : Agent :=
  { id := 1, agent_id := "agent-1", name := "disabled", status := .active,
    is_enabled := false, max_concurrent_tasks := 10 }

/-- A stored agent that is ACTIVE and enabled (id 2). -/
def exActiveAgent : Agent :=
  { id := 2, agent_id := "agent-2", name := "worker", status := .active,
    is_enabled := true, max_concurrent_tasks := 10 }

/-- A stored agent in MAINTENANCE (id 3). -/
def exMaintenanceAgent : Agent :=
  { id := 3, agent_id := "agent-3", name := "down", status := .maintenance,
    is_enabled := true, max_concurrent_tasks := 10 }

/-- A concrete agent table in persistence order. -/
def exAgents : List Agent := [exDisabledAgent, exActiveAgent]

/-- Witness for C5 at concrete inputs: the disabled agent (id 1) rejects
the assignment leaving the task unchanged, the enabled active agent
(id 2) receives it, and an absent id (3) yields the not-found error. -/
theorem c5_assign_agent_checks_witness :
    ((∃ e, assign_task_to_agent 0 exAgents exPendingTask 1 = .error e)
      ∧ storedAfter exPendingTask (assign_task_to_agent 0 exAgents exPendingTask 1)
          = exPendingTask)
    ∧ assign_task_to_agent 0 exAgents exPendingTask 2 =
        .ok { exPendingTask with agent_id := some 2, status := .running,
                                 started_at := some 0 }
    ∧ assign_task_to_agent 0 exAgents exPendingTask 3 =
        .error ("에이전트 ID " ++ toString 3 ++ "를 찾을 수 없습니다") := by
  have h1 := c5_assign_agent_checks 0 exAgents exPendingTask 1
  have h2 := c5_assign_agent_checks 0 exAgents exPendingTask 2
  have h3 := c5_assign_agent_checks 0 exAgents exPendingTask 3
  refine ⟨?_, ?_, ?_⟩
  · exact h1.2.1 exDisabledAgent (by rfl) (by decide)
  · exact h2.2.2 exActiveAgent (by rfl) (by decide) (by decide)
  · exact (h3.1 (by rfl)).1

/-- C6: auto-assignment takes the first stored agent, in persistence
order, that is ACTIVE and enabled (the head of the filtered agent list);
when no stored agent qualifies the call fails with the exhaustion error
and the stored task is unchanged; and the task's `priority` field has no
influence on the outcome beyond being carried through. -/
theorem c6_auto_assign_first_available (now : Nat) (agents : List Agent)
    (t : Task) (hid : (agents.map (fun a => a.id)).Nodup) :
    (∀ a, (agents.filter (fun a => decide (a.status = .active) && a.is_enabled)).head?
          = some a →
        auto_assign_task now agents t =
          .ok { t with agent_id := some a.id, status := .running,
                       started_at := some now })
    ∧ ((agents.filter (fun a => decide (a.status = .active) && a.is_enabled)).head?
          = none →
        auto_assign_task now agents t = .error "사용 가능한 에이전트가 없습니다"
        ∧ storedAfter t (auto_assign_task now agents t) = t)
    ∧ (∀ p, auto_assign_task now agents { t with priority := p } =
        Except.map (fun t2 => { t2 with priority := p })
          (auto_assign_task now agents t)) := by
  have hall : ∀ a ∈ agents.filter (fun a => decide (a.status = .active) && a.is_enabled),
      a.can_accept_task = true := by
    intro a ha
    rw [can_accept_task_eq]
    exact (List.mem_filter.mp ha).2
  have hfind := find_first_of_all (fun a => a.can_accept_task)
    (agents.filter (fun a => decide (a.status = .active) && a.is_enabled)) hall
  refine ⟨?_, ?_, ?_⟩
  · intro a hh
    have hmf : a ∈ agents.filter (fun a => decide (a.status = .active) && a.is_enabled) :=
      List.mem_of_mem_head? (Option.mem_def.mpr hh)
    have hmem : a ∈ agents := List.mem_of_mem_filter hmf
    have hacc : a.can_accept_task = true := hall a hmf
    simp only [auto_assign_task]
    rw [hfind, hh]
    show assign_task_to_agent now agents t a.id = _
    unfold assign_task_to_agent
    rw [find_by_id_of_nodup agents a hid hmem]
    simp [hacc]
  · intro hh
    simp only [auto_assign_task]
    rw [hfind, hh]
    exact ⟨rfl, rfl⟩
  · intro p
    simp only [auto_assign_task]
    rw [hfind]
    cases hh : (agents.filter (fun a => decide (a.status = .active) && a.is_enabled)).head? with
    | none => rfl
    | some a =>
      show assign_task_to_agent now agents { t with priority := p } a.id =
        Except.map (fun t2 => { t2 with priority := p })
          (assign_task_to_agent now agents t a.id)
      unfold assign_task_to_agent
      cases hf : agents.find? (fun b => decide (b.id = a.id)) with
      | none => rfl
      | some b =>
        by_cases hb : b.can_accept_task <;> simp [hb, Except.map]

/-- Witness for C6 at concrete inputs: with a disabled agent stored before
an enabled active one, auto-assignment picks the second agent (id 2); with
no stored agents it fails with the exhaustion error and the task is
unchanged. -/
theorem c6_auto_assign_first_available_witness :
    auto_assign_task 0 exAgents exPendingTask =
      .ok { exPendingTask with agent_id := some 2, status := .running,
                               started_at := some 0 }
    ∧ auto_assign_task 0 [] exPendingTask = .error "사용 가능한 에이전트가 없습니다"
    ∧ storedAfter exPendingTask (auto_assign_task 0 [] exPendingTask)
        = exPendingTask := by
  have h1 := c6_auto_assign_first_available 0 exAgents exPendingTask (by decide)
  have h2 := c6_auto_assign_first_available 0 [] exPendingTask (by decide)
  refine ⟨?_, ?_, ?_⟩
  · exact h1.1 exActiveAgent (by rfl)
  · exact (h2.2.1 (by rfl)).1
  · exact (h2.2.1 (by rfl)).2

/-- One conversation turn as stored by
`SupervisorAgent._add_to_history` in `src/src/agents/supervisor_agent.py`:
type, content, timestamp and a metadata mapping. -/
structure HistoryEntry where
  message_type : String
  content : String
  timestamp : Nat
  metadata : List (String × String)
deriving DecidableEq, Repr

/-- The history cap hard-coded as `max_history = 100` in
`SupervisorAgent._add_to_history`. -/
def max_history : Nat := 100

/-- Embeds `SupervisorAgent._add_to_history` from
`src/src/agents/supervisor_agent.py` (lines 353-368), acting on the per
thread entry list: append the new entry, then when the length exceeds the
cap keep only the last `max_history` entries (Python `[-max_history:]`). -/
def add_to_history (hist : List HistoryEntry) (e : HistoryEntry) :
    List HistoryEntry :=
  let h := hist ++ [e]
  if h.length > max_history then h.drop (h.length - max_history) else h

/-- The stored history of a fresh thread after a sequence of appends (a
thread starts from the empty list on first use). -/
def histAfter (es : List HistoryEntry) : List HistoryEntry :=
  es.foldl add_to_history []

/-- A single append to a history within the cap keeps the suffix of the
appended list that fits the cap. -/
lemma add_to_history_eq (hist : List HistoryEntry) (e : HistoryEntry)
    (h : hist.length ≤ 100) :
    add_to_history hist e = (hist ++ [e]).drop (hist.length + 1 - 100) := by
  unfold add_to_history max_history
  by_cases hc : (hist ++ [e]).length > 100
  · have hc2 : hist.length + 1 > 100 := by
      simpa using hc
    simp [hc2]
  · have hc2 : ¬ (hist.length + 1 > 100) := by
      simpa using hc
    have h0 : hist.length + 1 - 100 = 0 := by
      omega
    simp [hc2, h0]

/-- Folding `add_to_history` over a sequence of appends, starting from any
history within the cap, retains exactly the capped suffix. -/
lemma foldl_add_to_history (es : List HistoryEntry) :
    ∀ (h : List HistoryEntry), h.length ≤ 100 →
      es.foldl add_to_history h = (h ++ es).drop (h.length + es.length - 100) := by
  induction es with
  | nil =>
    intro h hh
    simp only [List.foldl_nil, List.append_nil, List.length_nil]
    have h0 : h.length + 0 - 100 = 0 := by
      omega
    rw [h0, List.drop_zero]
  | cons e tl ih =>
    intro h hh
    rw [List.foldl_cons, add_to_history_eq h e hh]
    have hlen : ((h ++ [e]).drop (h.length + 1 - 100)).length
        = h.length + 1 - (h.length + 1 - 100) := by
      simp [List.length_drop]
    have hle : ((h ++ [e]).drop (h.length + 1 - 100)).length ≤ 100 := by
      rw [hlen]
      omega
    rw [ih _ hle, hlen]
    have hdle : h.length + 1 - 100 ≤ (h ++ [e]).length := by
      simp only [List.length_append, List.length_singleton]
      omega
    rw [← List.drop_append_of_le_length hdle, List.drop_drop]
    rw [List.append_assoc, List.singleton_append]
    congr 1
    simp only [List.length_cons]
    omega

/-- C7: after any more than 100 appends to a fresh thread, the stored
history is exactly the 100 most recently appended entries in append order
(in particular its length is exactly 100, hence never exceeds the cap). -/
theorem c7_history_capped_fifo (es : List HistoryEntry)
    (h : 100 < es.length) :
    (histAfter es).length = 100
    ∧ histAfter es = es.drop (es.length - 100) := by
  have hmain := foldl_add_to_history es [] (by simp)
  simp only [List.nil_append, List.length_nil, Nat.zero_add] at hmain
  refine ⟨?_, hmain⟩
  rw [histAfter] at *
  rw [hmain]
  simp only [List.length_drop]
  omega

/-- A concrete conversation turn. -/
def exEntry : HistoryEntry :=
  { message_type := "user", content := "hello", timestamp := 0, metadata := [] }

/-- Witness for C7 at a concrete input: 101 appends leave exactly 100
stored entries. -/
theorem c7_history_capped_fifo_witness :
    100 < (List.replicate 101 exEntry).length
    ∧ (histAfter (List.replicate 101 exEntry)).length = 100 := by
  have hlen : 100 < (List.replicate 101 exEntry).length := by
    simp
  exact ⟨hlen, (c7_history_capped_fifo _ hlen).1⟩

/-- Python `str.lower()` on the request text: character-wise lowering
(the keywords involved are ASCII or Korean, on which `Char.toLower`
agrees with Python). -/
def strLower (s : String) : String :=
  ⟨s.data.map Char.toLower⟩

/-- Python `keyword in user_request`: substring containment. -/
def containsKw (text kw : String) : Bool :=
  decide (kw.data <:+: text.data)

/-- The EC2 trigger keywords of `analyze_request` in
`src/src/agents/supervisor_agent.py` (line 101), in source order. -/
def ec2Keywords : List String :=
  ["ec2", "aws", "인스턴스", "서버", "클라우드", "ami", "보안그룹"]

/-- The S3 trigger keywords of `analyze_request` (line 105). -/
def s3Keywords : List String :=
  ["s3", "버킷", "객체", "파일", "스토리지", "업로드", "다운로드"]

/-- The VPC trigger keywords of `analyze_request` (line 109). -/
def vpcKeywords : List String :=
  ["vpc", "서브넷", "보안그룹", "네트워크", "cidr", "가용영역"]

/-- The routing decision produced by the request-analysis step (the
`analysis` dict of `analyze_request`): selected handler, reasoning text
and the fixed confidence constant. -/
structure RoutingAnalysis where
  agent_type : String
  reasoning : String
  confidence : ℚ
deriving DecidableEq, Repr

/-- The `analyze_request` node of `SupervisorAgent._build_graph` in
`src/src/agents/supervisor_agent.py` (lines 93-137): lower-case the
request, then test the keyword lists in the fixed order EC2, S3, VPC and
fall back to the general handler; matched lists get confidence 0.9, the
fallback 0.7.  The function is total: it always returns a decision. -/
def analyze_request (user_request : String) : RoutingAnalysis :=
  let lr := strLower user_request
  if ec2Keywords.any (fun k => containsKw lr k) then
    { agent_type := "ec2",
      reasoning := "EC2 관련 키워드가 감지되어 EC2 Agent로 라우팅합니다.",
      confidence := 9/10 }
  else if s3Keywords.any (fun k => containsKw lr k) then
    { agent_type := "s3",
      reasoning := "S3 관련 키워드가 감지되어 S3 Agent로 라우팅합니다.",
      confidence := 9/10 }
  else if vpcKeywords.any (fun k => containsKw lr k) then
    { agent_type := "vpc",
      reasoning := "VPC 관련 키워드가 감지되어 VPC Agent로 라우팅합니다.",
      confidence := 9/10 }
  else
    { agent_type := "general",
      reasoning := "일반적인 대화로 판단되어 General Agent로 라우팅합니다.",
      confidence := 7/10 }

/-- C8: request analysis routes a text containing an S3 trigger keyword
but no (earlier-priority) EC2 keyword to the s3 handler with confidence
0.9; a text matching no keyword list goes to the general handler with
confidence 0.7; and every text receives one of the four routing
decisions (the function is total, it never raises). -/
theorem c8_analyze_request_routing (s : String) :
    (s3Keywords.any (fun k => containsKw (strLower s) k) = true →
      ec2Keywords.any (fun k => containsKw (strLower s) k) = false →
      (analyze_request s).agent_type = "s3"
      ∧ (analyze_request s).confidence = 9/10)
    ∧ (ec2Keywords.any (fun k => containsKw (strLower s) k) = false →
        s3Keywords.any (fun k => containsKw (strLower s) k) = false →
        vpcKeywords.any (fun k => containsKw (strLower s) k) = false →
        (analyze_request s).agent_type = "general"
        ∧ (analyze_request s).confidence = 7/10)
    ∧ (analyze_request s).agent_type ∈ (["ec2", "s3", "vpc", "general"] : List String) := by
  refine ⟨?_, ?_, ?_⟩
  · intro hs3 hec2
    simp [analyze_request, hs3, hec2]
  · intro hec2 hs3 hvpc
    simp [analyze_request, hec2, hs3, hvpc]
  · rw [analyze_request]
    by_cases h1 : ec2Keywords.any (fun k => containsKw (strLower s) k) = true
    · simp [h1]
    · by_cases h2 : s3Keywords.any (fun k => containsKw (strLower s) k) = true
      · simp [h1, h2]
      · by_cases h3 : vpcKeywords.any (fun k => containsKw (strLower s) k) = true
        · simp [h1, h2, h3]
        · simp [h1, h2, h3]

/-- Witness for C8 at concrete inputs: the Korean request "S3 버킷 목록
보여줘" routes to s3 at confidence 0.9, and a greeting with no keyword
routes to general at confidence 0.7. -/
theorem c8_analyze_request_routing_witness :
    (analyze_request "S3 버킷 목록 보여줘").agent_type = "s3"
    ∧ (analyze_request "S3 버킷 목록 보여줘").confidence = 9/10
    ∧ (analyze_request "안녕 잘 지내?").agent_type = "general"
    ∧ (analyze_request "안녕 잘 지내?").confidence = 7/10 := by
  have h1 := c8_analyze_request_routing "S3 버킷 목록 보여줘"
  have h2 := c8_analyze_request_routing "안녕 잘 지내?"
  have a1 := h1.1 (by decide) (by decide)
  have a2 := h2.2.1 (by decide) (by decide) (by decide)
  exact ⟨a1.1, a1.2, a2.1, a2.2⟩

/-- Result of an EC2 instance action in the embedding (the cloud SDK is
external): the instance ids actually dispatched to the SDK (`none` when
client-side validation rejected the call before any SDK call) and the
validation error text of the returned envelope. -/
structure Ec2ActionResult where
  sdkCall : Option (List String)
  validation_error : Option String
deriving DecidableEq, Repr

/-- Embeds `AWSCCTool._terminate_instance` from `src/src/agents/ec2_agent.py`
(lines 200-217): read `InstanceIds` (default empty), return the
`InstanceIds가 필요합니다.` error envelope when the list is empty, and
otherwise dispatch `terminate_instances` to the SDK. -/
def terminate_instance (instanceIds : Option (List String)) : Ec2ActionResult :=
  let ids := instanceIds.getD []
  if ids.isEmpty then
    { sdkCall := none, validation_error := some "InstanceIds가 필요합니다." }
  else
    { sdkCall := some ids, validation_error := none }

/-- Embeds `AWSCCTool._stop_instance` from `src/src/agents/ec2_agent.py`
(lines 162-179): the same validation as terminate, dispatching
`stop_instances`. -/
def stop_instance (instanceIds : Option (List String)) : Ec2ActionResult :=
  let ids := instanceIds.getD []
  if ids.isEmpty then
    { sdkCall := none, validation_error := some "InstanceIds가 필요합니다." }
  else
    { sdkCall := some ids, validation_error := none }

/-- Result of an S3 bucket action in the embedding: the bucket name
dispatched to the SDK and the validation error of the envelope. -/
structure S3ActionResult where
  sdkCall : Option String
  validation_error : Option String
deriving DecidableEq, Repr

/-- Embeds `S3Agent._delete_bucket` from `src/src/agents/s3_agent.py`
(lines 221-244): read `bucket_name` with the default
`"default-bucket"` and dispatch `delete_bucket` to the SDK — there is no
client-side validation of a missing bucket name. -/
def delete_bucket (bucketName : Option String) : S3ActionResult :=
  let b := bucketName.getD "default-bucket"
  { sdkCall := some b, validation_error := none }

/-- C9 counterexample: calling the S3 delete-bucket action with no
`bucket_name` parameter does not return a validation-failure envelope;
it substitutes the default name and dispatches the delete call to the
cloud SDK. -/
theorem c9_delete_validation_counterexample :
    ¬ ((delete_bucket none).sdkCall = none)
    ∧ (delete_bucket none).sdkCall = some "default-bucket"
    ∧ (delete_bucket none).validation_error = none := by
  refine ⟨?_, rfl, rfl⟩
  intro h
  cases h

/-- C9 (amended): the EC2 terminate and stop actions with a missing or
empty `InstanceIds` parameter return the `InstanceIds가 필요합니다.`
validation envelope without dispatching any SDK call, and dispatch
exactly the given ids otherwise; the S3 delete-bucket action never
validates: it always dispatches, substituting `"default-bucket"` when the
name is absent. -/
theorem c9_delete_validation_amended :
    (∀ ids : Option (List String), (ids = none ∨ ids = some []) →
      terminate_instance ids =
        { sdkCall := none, validation_error := some "InstanceIds가 필요합니다." }
      ∧ stop_instance ids =
        { sdkCall := none, validation_error := some "InstanceIds가 필요합니다." })
    ∧ (∀ ids : List String, ids ≠ [] →
        terminate_instance (some ids) = { sdkCall := some ids, validation_error := none }
        ∧ stop_instance (some ids) = { sdkCall := some ids, validation_error := none })
    ∧ (∀ b : Option String,
        delete_bucket b =
          { sdkCall := some (b.getD "default-bucket"), validation_error := none }) := by
  refine ⟨?_, ?_, ?_⟩
  · intro ids h
    rcases h with rfl | rfl <;> exact ⟨rfl, rfl⟩
  · intro ids h
    have he : ids.isEmpty = false := by
      cases ids with
      | nil => exact absurd rfl h
      | cons a l => rfl
    unfold terminate_instance stop_instance
    simp [he]
  · intro b
    rfl

/-- Witness for C9 (amended) at concrete inputs: terminate with no ids is
rejected client-side, terminate with one id dispatches it, and
delete-bucket with no name dispatches the default. -/
theorem c9_delete_validation_amended_witness :
    terminate_instance none =
      { sdkCall := none, validation_error := some "InstanceIds가 필요합니다." }
    ∧ stop_instance (some []) =
      { sdkCall := none, validation_error := some "InstanceIds가 필요합니다." }
    ∧ terminate_instance (some ["i-123"]) =
      { sdkCall := some ["i-123"], validation_error := none }
    ∧ delete_bucket none =
      { sdkCall := some "default-bucket", validation_error := none } := by
  have h := c9_delete_validation_amended
  refine ⟨(h.1 none (Or.inl rfl)).1, (h.1 (some []) (Or.inr rfl)).2, ?_, h.2.2 none⟩
  exact (h.2.1 ["i-123"] (by decide)).1

/-- Paginated response schema from `src/src/schemas/common.py`
(`PaginatedResponse`). -/
structure PaginatedResponse (α : Type) where
  items : List α
  total : Nat
  page : Nat
  size : Nat
  pages : Nat
  has_next : Bool
  has_prev : Bool
deriving Repr

/-- Embeds `PaginatedResponse.create` from `src/src/schemas/common.py`
(lines 70-88): `pages = (total + size - 1) // size`,
`has_next = page < pages`, `has_prev = page > 1`. -/
def PaginatedResponse.create {α : Type} (items : List α)
    (total page size : Nat) : PaginatedResponse α :=
  let pages := (total + size - 1) / size
  { items := items, total := total, page := page, size := size,
    pages := pages, has_next := decide (page < pages),
    has_prev := decide (page > 1) }

/-- C10: for page ≥ 1 and 1 ≤ size ≤ 100 the reported `pages` is the
ceiling of total over size — it is `(total + size - 1) / size`, it covers
all items (`total ≤ pages * size`) and is least among such counts
(`(pages - 1) * size < total` when positive); `has_next` holds exactly
when `page < pages`, `has_prev` exactly when `page > 1`; and for
`total = 0` the page count is 0 and page 1 has neither neighbour flag. -/
theorem c10_pagination_meta {α : Type} (items : List α)
    (total page size : Nat) (hp : 1 ≤ page) (hs1 : 1 ≤ size)
    (hs2 : size ≤ 100) :
    (PaginatedResponse.create items total page size).pages
      = (total + size - 1) / size
    ∧ total ≤ (PaginatedResponse.create items total page size).pages * size
    ∧ (0 < (PaginatedResponse.create items total page size).pages →
        ((PaginatedResponse.create items total page size).pages - 1) * size < total)
    ∧ ((PaginatedResponse.create items total page size).has_next = true ↔
        page < (PaginatedResponse.create items total page size).pages)
    ∧ ((PaginatedResponse.create items total page size).has_prev = true ↔ 1 < page)
    ∧ (total = 0 →
        (PaginatedResponse.create items total page size).pages = 0
        ∧ (PaginatedResponse.create items total page size).has_next = false
        ∧ (page = 1 →
            (PaginatedResponse.create items total page size).has_prev = false)) := by
  have hdm := Nat.div_add_mod (total + size - 1) size
  have hmod : (total + size - 1) % size < size := Nat.mod_lt _ (by omega)
  refine ⟨rfl, ?_, ?_, ?_, ?_, ?_⟩
  · show total ≤ (total + size - 1) / size * size
    rw [Nat.mul_comm]
    omega
  · intro hq
    show ((total + size - 1) / size - 1) * size < total
    have hq2 : 0 < (total + size - 1) / size := hq
    have hsm : size ≤ size * ((total + size - 1) / size) :=
      Nat.le_mul_of_pos_right size hq2
    have h2 : ((total + size - 1) / size - 1) * size
        = ((total + size - 1) / size) * size - size := Nat.sub_one_mul _ _
    rw [h2, Nat.mul_comm]
    omega
  · simp [PaginatedResponse.create]
  · simp [PaginatedResponse.create]
  · intro h0
    subst h0
    have hp0 : (0 + size - 1) / size = 0 := by
      apply Nat.div_eq_of_lt
      omega
    refine ⟨?_, ?_, ?_⟩
    · simpa [PaginatedResponse.create] using hp0
    · have hp0b : (size - 1) / size = 0 := by
        apply Nat.div_eq_of_lt
        omega
      simp [PaginatedResponse.create, hp0b]
    · intro hpage
      subst hpage
      simp [PaginatedResponse.create]

/-- Witness for C10 at concrete inputs: 5 items at page 2 of size 2 give
3 pages with both flags set, and an empty listing at page 1 gives 0 pages
with both flags unset. -/
theorem c10_pagination_meta_witness :
    (PaginatedResponse.create ([0, 1] : List Nat) 5 2 2).pages = 3
    ∧ (PaginatedResponse.create ([0, 1] : List Nat) 5 2 2).has_next = true
    ∧ (PaginatedResponse.create ([0, 1] : List Nat) 5 2 2).has_prev = true
    ∧ (PaginatedResponse.create ([] : List Nat) 0 1 20).pages = 0
    ∧ (PaginatedResponse.create ([] : List Nat) 0 1 20).has_next = false
    ∧ (PaginatedResponse.create ([] : List Nat) 0 1 20).has_prev = false := by
  have h1 := c10_pagination_meta ([0, 1] : List Nat) 5 2 2 (by decide) (by decide) (by decide)
  have h2 := c10_pagination_meta ([] : List Nat) 0 1 20 (by decide) (by decide) (by decide)
  have e1 : (PaginatedResponse.create ([0, 1] : List Nat) 5 2 2).pages = 3 := by
    rw [h1.1]
  have hz := h2.2.2.2.2.2 rfl
  refine ⟨e1, ?_, ?_, hz.1, hz.2.1, hz.2.2 rfl⟩
  · rw [h1.2.2.2.1, e1]
    decide
  · rw [h1.2.2.2.2.1]
    decide

end AgenticCP
